import Mathlib

/-!
Shallow embedding of `src/services/trading/tradingService.ts`
(the Pinia trading store of BinanceAlphaTool).

JS numbers that hold money amounts and random draws are modelled as `ℚ`;
timestamps (`Date.now()`) as `Int` (milliseconds).  The browser
environment (cookies, axios responses, `Math.random()`, clock) is
modelled as explicit inputs: each remote call's outcome is an
`Except String _` value, where `.error e` stands for the underlying
call throwing (transport failure, unparseable response body, or any
other exception raised inside the `try` block), and the `.ok` payload
is the parsed response shape the code reads.  `localStorage` is
modelled as an `Option StoredConfig`, classifying the stored string by
the outcome of `JSON.parse` on it.
-/

/-- `TradeConfig` interface of the source. -/
structure TradeConfig where
  fromToken : String
  toToken : String
  contractAddress : String
  minAmount : ℚ
  maxAmount : ℚ
  targetVolume : ℚ
  maxLossRate : ℚ
  minUSDTRequired : ℚ
deriving DecidableEq, Repr

/-- `TradeRecord` interface of the source. -/
structure TradeRecord where
  time : String
  buyAmount : ℚ
  sellAmount : ℚ
  profitLoss : ℚ
  cycleNumber : Nat
deriving DecidableEq, Repr

/-- The `stats` ref of the store. -/
structure Stats where
  startBalance : ℚ
  currentBalance : ℚ
  totalVolume : ℚ
  cyclesCompleted : Nat
  totalProfit : ℚ
  tradeHistory : List TradeRecord
  startTime : Int
  lastUpdated : Int
deriving DecidableEq, Repr

/-- The mutable refs of the trading store: `config`, `stats`, `logs`,
`isTrading`, `isConnected`. -/
structure Store where
  config : TradeConfig
  stats : Stats
  logs : List String
  isTrading : Bool
  isConnected : Bool
deriving DecidableEq, Repr

/-- The initial value of the `config` ref. -/
def defaultConfig : TradeConfig where
  fromToken := "USDT"
  toToken := "B2"
  contractAddress := "0x783c3f003f172c6ac5ac700218a357d2d66ee2a2"
  minAmount := 10
  maxAmount := 20
  targetVolume := 8192
  maxLossRate := 0.004
  minUSDTRequired := 50

/-- The initial value of the `stats` ref. -/
def initialStats : Stats where
  startBalance := 0
  currentBalance := 0
  totalVolume := 0
  cyclesCompleted := 0
  totalProfit := 0
  tradeHistory := []
  startTime := 0
  lastUpdated := 0

/-- The store as created by `useTradingStore`. -/
def initialStore : Store where
  config := defaultConfig
  stats := initialStats
  logs := []
  isTrading := false
  isConnected := false

/-- `logs.value.push(m)`. -/
def pushLog (s : Store) (m : String) : Store :=
  { s with logs := s.logs ++ [m] }

/-- Rendering of a JS number into a log line (template-literal
interpolation); the exact digit string is irrelevant to every claim. -/
def numStr (q : ℚ) : String := toString q

/-- Rendering of a JS integer into a log line. -/
def natStr (n : Nat) : String := toString n

def cookieErrMsg : String := "無法找到cr00 cookie"

def quoteErrMsg (e : String) : String := "❌ 獲取報價錯誤: " ++ e

def buyErrMsg (e : String) : String := "❌ 買入代幣錯誤: " ++ e

def sellErrMsg (e : String) : String := "❌ 賣出代幣錯誤: " ++ e

def balanceErrMsg (e : String) : String := "❌ 獲取USDT餘額錯誤: " ++ e

def insufficientMsg (bal req : ℚ) : String :=
  "⚠️ USDT餘額不足: " ++ numStr bal ++ " < " ++ numStr req

def cycleStartMsg (n : Nat) (amt : ℚ) (tok : String) : String :=
  "🔄 開始第 " ++ natStr n ++ " 輪交易，買入金額：" ++ numStr amt ++ " " ++ tok

def buyFailMsg (m : String) : String := "❌ 買入失敗: " ++ m

def sellFailMsg (m : String) : String := "❌ 賣出失敗: " ++ m

def tradeSuccessMsg (amt : ℚ) (tok : String) (got : ℚ) : String :=
  "✅ 交易成功：買入 " ++ numStr amt ++ " " ++ tok ++ "，賣出獲得 " ++ numStr got ++ " " ++ tok

def startMsg : String := "🚀 開始自動交易"

def warnRetryMsg : String := "⚠️ 交易循環失敗，等待30秒後重試"

def stopMsg : String := "⏹️ 停止交易"

/-- The header record built by `getHeaders`. -/
structure Headers where
  accept : String
  contentType : String
  clienttype : String
  csrftoken : String
deriving DecidableEq, Repr

/-- `getHeaders`: reads the `cr00` cookie (modelled as an
`Option String` input); if absent it throws (`Except.error`), else it
derives `csrftoken = MD5(cr00)` (`md5` is the external hash, passed as
a function). -/
def getHeaders (md5 : String → String) (cookie : Option String) :
    Except String Headers :=
  match cookie with
  | none => Except.error cookieErrMsg
  | some v => Except.ok ⟨"*/*", "application/json", "web", md5 v⟩

/-- The fields of a quote response (`response.data.data`) that the
cycle reads: `toCoinAmount` and `extra`. -/
structure Quote where
  toCoinAmount : ℚ
  extra : String
deriving DecidableEq, Repr

/-- The fields of a buy/sell response (`response.data`) that the cycle
reads: `success` and `message`. -/
structure TxResult where
  success : Bool
  message : String
deriving DecidableEq, Repr

/-- `getQuote`: POST inside `try`; `getHeaders` may throw inside the
`try`; on any throw, one log line is appended and `null` is returned;
on success `response.data.data` is returned (which may itself be
absent, modelled by the inner `Option`). -/
def getQuote (md5 : String → String) (cookie : Option String)
    (resp : Except String (Option Quote)) (s : Store) :
    Option Quote × Store :=
  match getHeaders md5 cookie with
  | Except.error e => (none, pushLog s (quoteErrMsg e))
  | Except.ok _ =>
    match resp with
    | Except.error e => (none, pushLog s (quoteErrMsg e))
    | Except.ok q => (q, s)

/-- `buyToken`: POST inside `try`; on any throw, one log line is
appended and `{success: false, message: error}` is returned; on
success `response.data` is returned. -/
def buyToken (md5 : String → String) (cookie : Option String)
    (resp : Except String TxResult) (s : Store) :
    TxResult × Store :=
  match getHeaders md5 cookie with
  | Except.error e => (⟨false, e⟩, pushLog s (buyErrMsg e))
  | Except.ok _ =>
    match resp with
    | Except.error e => (⟨false, e⟩, pushLog s (buyErrMsg e))
    | Except.ok r => (r, s)

/-- `sellToken`: as `buyToken` but with the sell endpoint and log
prefix. -/
def sellToken (md5 : String → String) (cookie : Option String)
    (resp : Except String TxResult) (s : Store) :
    TxResult × Store :=
  match getHeaders md5 cookie with
  | Except.error e => (⟨false, e⟩, pushLog s (sellErrMsg e))
  | Except.ok _ =>
    match resp with
    | Except.error e => (⟨false, e⟩, pushLog s (sellErrMsg e))
    | Except.ok r => (r, s)

/-- `getUSDTBalance`: GET inside `try`; on any throw (including a
response shape on which the `find` chain throws), one log line is
appended and `0` is returned; `.ok none` models a well-formed response
in which no MAIN/USDT entry is found (returns `0`, no log);
`.ok (some q)` models `parseFloat(usdt.free) = q`. -/
def getUSDTBalance (md5 : String → String) (cookie : Option String)
    (resp : Except String (Option ℚ)) (s : Store) :
    ℚ × Store :=
  match getHeaders md5 cookie with
  | Except.error e => (0, pushLog s (balanceErrMsg e))
  | Except.ok _ =>
    match resp with
    | Except.error e => (0, pushLog s (balanceErrMsg e))
    | Except.ok none => (0, s)
    | Except.ok (some q) => (q, s)

/-- One cycle's slice of the external world: the `cr00` cookie, the
outcome of each of the four remote calls made by `runCycle` (in
program order), the `Math.random()` draw, and the clock. -/
structure CycleEnv where
  md5 : String → String
  cookie : Option String
  balanceResp : Except String (Option ℚ)
  rand : ℚ
  buyQuoteResp : Except String (Option Quote)
  buyResp : Except String TxResult
  sellQuoteResp : Except String (Option Quote)
  sellResp : Except String TxResult
  nowIso : String
  now : Int

/-- `runCycle`: one buy-then-sell cycle, returning the updated store
and the boolean result.  Mirrors the source line by line: balance
check, random amount, buy quote, buy, sell quote, sell, stats update.
All modelled operations are total, so the source's outer `catch` arm
is unreachable in the model. -/
def runCycle (env : CycleEnv) (s : Store) : Store × Bool :=
  let usdtBalance := (getUSDTBalance env.md5 env.cookie env.balanceResp s).1
  let s := (getUSDTBalance env.md5 env.cookie env.balanceResp s).2
  let s := { s with stats := { s.stats with currentBalance := usdtBalance } }
  if usdtBalance < s.config.minUSDTRequired then
    (pushLog s (insufficientMsg usdtBalance s.config.minUSDTRequired), false)
  else
    let fromToken := s.config.fromToken
    let fromAmount :=
      env.rand * (s.config.maxAmount - s.config.minAmount) + s.config.minAmount
    let s := pushLog s (cycleStartMsg (s.stats.cyclesCompleted + 1) fromAmount fromToken)
    let buyQuote := (getQuote env.md5 env.cookie env.buyQuoteResp s).1
    let s := (getQuote env.md5 env.cookie env.buyQuoteResp s).2
    match buyQuote with
    | none => (s, false)
    | some _buyQuote =>
      let buyResult := (buyToken env.md5 env.cookie env.buyResp s).1
      let s := (buyToken env.md5 env.cookie env.buyResp s).2
      if !buyResult.success then
        (pushLog s (buyFailMsg buyResult.message), false)
      else
        let sellQuote := (getQuote env.md5 env.cookie env.sellQuoteResp s).1
        let s := (getQuote env.md5 env.cookie env.sellQuoteResp s).2
        match sellQuote with
        | none => (s, false)
        | some sellQuote =>
          let sellResult := (sellToken env.md5 env.cookie env.sellResp s).1
          let s := (sellToken env.md5 env.cookie env.sellResp s).2
          if !sellResult.success then
            (pushLog s (sellFailMsg sellResult.message), false)
          else
            let newTrade : TradeRecord :=
              { time := env.nowIso
                buyAmount := fromAmount
                sellAmount := sellQuote.toCoinAmount
                profitLoss := sellQuote.toCoinAmount - fromAmount
                cycleNumber := s.stats.cyclesCompleted + 1 }
            let s :=
              { s with stats :=
                { s.stats with
                  tradeHistory := s.stats.tradeHistory ++ [newTrade]
                  totalVolume := s.stats.totalVolume + fromAmount
                  totalProfit := s.stats.totalProfit + newTrade.profitLoss
                  cyclesCompleted := s.stats.cyclesCompleted + 1
                  lastUpdated := env.now } }
            (pushLog s (tradeSuccessMsg fromAmount fromToken sellQuote.toCoinAmount), true)

/-- `stopTrading`: clears the flag, then pushes the stop log line —
unconditionally, also when the flag was already clear. -/
def stopTrading (s : Store) : Store :=
  pushLog { s with isTrading := false } stopMsg

/-- The entry of `startTrading` before the `while` loop: early return
if already trading, else set the flag, set `startTime = Date.now()`,
and push the start log line. -/
def startTradingEnter (now : Int) (s : Store) : Store :=
  if s.isTrading then s
  else pushLog { s with isTrading := true
                        stats := { s.stats with startTime := now } } startMsg

/-- Control position inside `startTrading`'s `while` loop.  `top` is
the loop condition check; `afterCycle ok` is the point right after
`await runCycle()` resolved with `ok`; `inBackoff` is the 30-second
suspension taken after a failed cycle; `inInter` is the unconditional
60-second inter-cycle suspension; `done` is after `stopTrading()` ran
on loop exit. -/
inductive Phase where
  | top
  | afterCycle (ok : Bool)
  | inBackoff
  | inInter
  | done
deriving DecidableEq, Repr

/-- What one small step of the drive loop did. -/
inductive LoopEvent where
  | ranCycle (ok : Bool)
  | enteredBackoff
  | enteredInter
  | wokeBackoff
  | wokeInter
  | exited
  | idle
deriving DecidableEq, Repr

/-- A point in an execution of `startTrading`'s loop. -/
structure LoopState where
  phase : Phase
  store : Store
deriving Repr

/-- One small step of `startTrading`'s `while` loop.  Each suspension
point of the source (`await` of a delay) is one `Phase`; a step either
runs the loop-condition check, runs one full `runCycle`, enters a
delay, or wakes from one.  Waking from the backoff delay proceeds
straight into the inter-cycle delay — the source re-checks
`isTrading` only at the loop top.  On loop exit, `stopTrading()` is
called. -/
def loopStep (env : CycleEnv) (ls : LoopState) : LoopState × LoopEvent :=
  match ls.phase with
  | Phase.top =>
    if ls.store.isTrading ∧ ls.store.stats.totalVolume < ls.store.config.targetVolume then
      (⟨Phase.afterCycle (runCycle env ls.store).2, (runCycle env ls.store).1⟩,
        LoopEvent.ranCycle (runCycle env ls.store).2)
    else
      (⟨Phase.done, stopTrading ls.store⟩, LoopEvent.exited)
  | Phase.afterCycle ok =>
    if ok then (⟨Phase.inInter, ls.store⟩, LoopEvent.enteredInter)
    else (⟨Phase.inBackoff, pushLog ls.store warnRetryMsg⟩, LoopEvent.enteredBackoff)
  | Phase.inBackoff => (⟨Phase.inInter, ls.store⟩, LoopEvent.wokeBackoff)
  | Phase.inInter => (⟨Phase.top, ls.store⟩, LoopEvent.wokeInter)
  | Phase.done => (⟨Phase.done, ls.store⟩, LoopEvent.idle)

/-- Iterate `loopStep` (every cycle is given the same environment). -/
def loopStepN (env : CycleEnv) : Nat → LoopState → LoopState
  | 0, ls => ls
  | n + 1, ls => loopStepN env n (loopStep env ls).1

/-- The events of the first `n` steps. -/
def loopTrace (env : CycleEnv) : Nat → LoopState → List LoopEvent
  | 0, _ => []
  | n + 1, ls => (loopStep env ls).2 :: loopTrace env n (loopStep env ls).1

/-- The `tradingConfig` entry of `localStorage`, classified by what
`JSON.parse` does to the stored string: `wellFormed c` is a string
that parses back to the `TradeConfig` `c`; `corrupt raw` is a string
on which `JSON.parse` throws. -/
inductive StoredConfig where
  | wellFormed (c : TradeConfig)
  | corrupt (raw : String)
deriving DecidableEq, Repr

/-- `saveConfig`: `localStorage.setItem('tradingConfig',
JSON.stringify(config))` — writes the complete current config,
overwriting whatever was stored. -/
def saveConfig (s : Store) (_storage : Option StoredConfig) : Option StoredConfig :=
  some (StoredConfig.wellFormed s.config)

/-- `loadConfig`: reads the stored record; if absent, does nothing
(keeps the current config); if present, runs `JSON.parse` on it with
no surrounding `try` — a parse throw propagates out of `loadConfig`
(modelled as `Except.error`). -/
def loadConfig (storage : Option StoredConfig) (s : Store) : Except String Store :=
  match storage with
  | none => Except.ok s
  | some (StoredConfig.wellFormed c) => Except.ok { s with config := c }
  | some (StoredConfig.corrupt raw) =>
    Except.error ("SyntaxError: JSON.parse: " ++ raw)

/-- `padStart(2, '0')` on a rendered number. -/
def padStart2 (str : String) : String :=
  if str.length ≥ 2 then str
  else String.mk (List.replicate (2 - str.length) '0') ++ str

/-- The `runningTime` computed view: `'00:00:00'` when
`stats.startTime === 0`, else `Date.now() - startTime` broken into
hours, minutes and seconds (JS `Math.floor` on a quotient of integers
is floor division; JS `%` keeps the dividend's sign, i.e. `Int.tmod`).
It reads only `stats.startTime` and the clock. -/
def runningTime (s : Store) (now : Int) : String :=
  if s.stats.startTime = 0 then "00:00:00"
  else
    let rt := now - s.stats.startTime
    let hours := rt.fdiv (1000 * 60 * 60)
    let minutes := (rt.tmod (1000 * 60 * 60)).fdiv (1000 * 60)
    let seconds := (rt.tmod (1000 * 60)).fdiv 1000
    padStart2 (toString hours) ++ ":" ++ padStart2 (toString minutes)
      ++ ":" ++ padStart2 (toString seconds)

/-- Spec-side formatter: the `hh:mm:ss` rendering of an elapsed
millisecond count, to compare `runningTime` against `now - startTime`. -/
def fmtElapsed (rt : Int) : String :=
  padStart2 (toString (rt.fdiv 3600000)) ++ ":"
    ++ padStart2 (toString ((rt.tmod 3600000).fdiv 60000)) ++ ":"
    ++ padStart2 (toString ((rt.tmod 60000).fdiv 1000))

/-- The `profitStatus` computed view. -/
def profitStatus (s : Store) : String :=
  if s.stats.totalProfit ≥ 0 then "positive" else "negative"

/-- Sum of `buyAmount` over a trade history. -/
def sumBuy (l : List TradeRecord) : ℚ :=
  (l.map TradeRecord.buyAmount).sum

/-- The spec's Stats invariant: `cyclesCompleted == length(tradeHistory)`
and `totalVolume == sum(buyAmount over tradeHistory)`. -/
def statsInvariant (s : Store) : Prop :=
  s.stats.cyclesCompleted = s.stats.tradeHistory.length ∧
  s.stats.totalVolume = sumBuy s.stats.tradeHistory

instance : DecidablePred statsInvariant := fun s => by
  unfold statsInvariant; infer_instance

/-- `s` with only `config.maxLossRate` replaced by `r`. -/
def setMLR (s : Store) (r : ℚ) : Store :=
  { s with config := { s.config with maxLossRate := r } }

/-- A placeholder for the external MD5 implementation in concrete
test fixtures (its output never influences any claim). -/
def idHash : String → String := fun x => x

/-- A concrete environment in which every remote call succeeds:
balance 1000, buy and sell both accepted, sell quote returning 15. -/
def okEnv : CycleEnv where
  md5 := idHash
  cookie := some "sessioncookie"
  balanceResp := Except.ok (some 1000)
  rand := 0
  buyQuoteResp := Except.ok (some ⟨37 / 10, "extraBuy"⟩)
  buyResp := Except.ok ⟨true, "ok"⟩
  sellQuoteResp := Except.ok (some ⟨15, "extraSell"⟩)
  sellResp := Except.ok ⟨true, "ok"⟩
  nowIso := "2026-01-01T00:00:00.000Z"
  now := 1767225600000

/-- The config of testable property §8.6: `minAmount = maxAmount = 15`,
`targetVolume = 100`. -/
def cfg6 : TradeConfig :=
  { defaultConfig with minAmount := 15, maxAmount := 15, targetVolume := 100 }

/-- The store right after `startTrading`'s entry under `cfg6`. -/
def store6 : Store :=
  startTradingEnter 0 { initialStore with config := cfg6 }

/-- The drive loop of `startTrading` about to run its first condition
check under `cfg6`. -/
def ls6 : LoopState := ⟨Phase.top, store6⟩

/-- A store whose `startTime` is set (a run happened) but which is no
longer trading. -/
def frozenStore : Store :=
  { initialStore with stats := { initialStats with startTime := 1 } }


/-- Derived view: the value `getQuote` returns, which depends only on
the cookie and the response, never on the store. -/
def quoteVal (md5 : String → String) (cookie : Option String)
    (resp : Except String (Option Quote)) : Option Quote :=
  match getHeaders md5 cookie with
  | Except.error _ => none
  | Except.ok _ =>
    match resp with
    | Except.error _ => none
    | Except.ok q => q

/-- Derived view: the log lines `getQuote` appends. -/
def quoteLogTail (md5 : String → String) (cookie : Option String)
    (resp : Except String (Option Quote)) : List String :=
  match getHeaders md5 cookie with
  | Except.error e => [quoteErrMsg e]
  | Except.ok _ =>
    match resp with
    | Except.error e => [quoteErrMsg e]
    | Except.ok _ => []

/-- Derived view: the value `buyToken` returns. -/
def buyVal (md5 : String → String) (cookie : Option String)
    (resp : Except String TxResult) : TxResult :=
  match getHeaders md5 cookie with
  | Except.error e => ⟨false, e⟩
  | Except.ok _ =>
    match resp with
    | Except.error e => ⟨false, e⟩
    | Except.ok r => r

/-- Derived view: the log lines `buyToken` appends. -/
def buyLogTail (md5 : String → String) (cookie : Option String)
    (resp : Except String TxResult) : List String :=
  match getHeaders md5 cookie with
  | Except.error e => [buyErrMsg e]
  | Except.ok _ =>
    match resp with
    | Except.error e => [buyErrMsg e]
    | Except.ok _ => []

/-- Derived view: the value `sellToken` returns. -/
def sellVal (md5 : String → String) (cookie : Option String)
    (resp : Except String TxResult) : TxResult :=
  match getHeaders md5 cookie with
  | Except.error e => ⟨false, e⟩
  | Except.ok _ =>
    match resp with
    | Except.error e => ⟨false, e⟩
    | Except.ok r => r

/-- Derived view: the log lines `sellToken` appends. -/
def sellLogTail (md5 : String → String) (cookie : Option String)
    (resp : Except String TxResult) : List String :=
  match getHeaders md5 cookie with
  | Except.error e => [sellErrMsg e]
  | Except.ok _ =>
    match resp with
    | Except.error e => [sellErrMsg e]
    | Except.ok _ => []

/-- Derived view: the balance `getUSDTBalance` returns. -/
def balVal (md5 : String → String) (cookie : Option String)
    (resp : Except String (Option ℚ)) : ℚ :=
  match getHeaders md5 cookie with
  | Except.error _ => 0
  | Except.ok _ =>
    match resp with
    | Except.error _ => 0
    | Except.ok none => 0
    | Except.ok (some q) => q

/-- Derived view: the log lines `getUSDTBalance` appends. -/
def balLogTail (md5 : String → String) (cookie : Option String)
    (resp : Except String (Option ℚ)) : List String :=
  match getHeaders md5 cookie with
  | Except.error e => [balanceErrMsg e]
  | Except.ok _ =>
    match resp with
    | Except.error e => [balanceErrMsg e]
    | Except.ok _ => []

/-! ### Helper lemmas: the four MarketClient operations only append to `logs` -/

@[simp] theorem getQuote_stats (m : String → String) (c : Option String)
    (r : Except String (Option Quote)) (s : Store) :
    ((getQuote m c r s).2).stats = s.stats := by
  cases c <;> rcases r with e | q <;> simp [getQuote, getHeaders, pushLog]

@[simp] theorem getQuote_config (m : String → String) (c : Option String)
    (r : Except String (Option Quote)) (s : Store) :
    ((getQuote m c r s).2).config = s.config := by
  cases c <;> rcases r with e | q <;> simp [getQuote, getHeaders, pushLog]

@[simp] theorem buyToken_stats (m : String → String) (c : Option String)
    (r : Except String TxResult) (s : Store) :
    ((buyToken m c r s).2).stats = s.stats := by
  cases c <;> rcases r with e | q <;> simp [buyToken, getHeaders, pushLog]

@[simp] theorem buyToken_config (m : String → String) (c : Option String)
    (r : Except String TxResult) (s : Store) :
    ((buyToken m c r s).2).config = s.config := by
  cases c <;> rcases r with e | q <;> simp [buyToken, getHeaders, pushLog]

@[simp] theorem sellToken_stats (m : String → String) (c : Option String)
    (r : Except String TxResult) (s : Store) :
    ((sellToken m c r s).2).stats = s.stats := by
  cases c <;> rcases r with e | q <;> simp [sellToken, getHeaders, pushLog]

@[simp] theorem sellToken_config (m : String → String) (c : Option String)
    (r : Except String TxResult) (s : Store) :
    ((sellToken m c r s).2).config = s.config := by
  cases c <;> rcases r with e | q <;> simp [sellToken, getHeaders, pushLog]

@[simp] theorem getUSDTBalance_stats (m : String → String) (c : Option String)
    (r : Except String (Option ℚ)) (s : Store) :
    ((getUSDTBalance m c r s).2).stats = s.stats := by
  cases c <;> rcases r with e | (_ | q) <;> simp [getUSDTBalance, getHeaders, pushLog]

@[simp] theorem getUSDTBalance_config (m : String → String) (c : Option String)
    (r : Except String (Option ℚ)) (s : Store) :
    ((getUSDTBalance m c r s).2).config = s.config := by
  cases c <;> rcases r with e | (_ | q) <;> simp [getUSDTBalance, getHeaders, pushLog]

@[simp] theorem pushLog_stats (s : Store) (m : String) :
    (pushLog s m).stats = s.stats := rfl

@[simp] theorem pushLog_config (s : Store) (m : String) :
    (pushLog s m).config = s.config := rfl

/-! ### Claim theorems -/

/-- C3 (amended): if the persisted record is absent, `loadConfig`
surfaces no error and leaves the store unchanged (so the config stays
at its current value — the built-in defaults on a fresh store); if the
record parses, the parsed config replaces the current one; but if the
record is corrupt, the `JSON.parse` failure propagates out of
`loadConfig` instead of falling back to the defaults. -/
theorem C3_loadConfig_fallback (s : Store) (c : TradeConfig) (raw : String) :
    loadConfig none s = Except.ok s ∧
    loadConfig (some (StoredConfig.wellFormed c)) s = Except.ok { s with config := c } ∧
    loadConfig (some (StoredConfig.corrupt raw)) s
      = Except.error ("SyntaxError: JSON.parse: " ++ raw) := by
  simp [loadConfig]

/-- C3 counterexample: on a corrupt persisted record, `loadConfig`
raises (the `JSON.parse` exception escapes; there is no `try` around
it), rather than returning the built-in default config without error
as the claim states. -/
theorem C3_counterexample :
    loadConfig (some (StoredConfig.corrupt "oops")) initialStore
      = Except.error "SyntaxError: JSON.parse: oops" := rfl

/-- C8: `saveConfig` writes the complete current config, overwriting
the stored record whatever it previously held (no partial-field
merge), and a subsequent `loadConfig` recovers a `TradeConfig` equal
field for field to the saved one. -/
theorem C8_config_roundtrip (s t : Store) (storage : Option StoredConfig) :
    saveConfig s storage = some (StoredConfig.wellFormed s.config) ∧
    loadConfig (saveConfig s storage) t = Except.ok { t with config := s.config } := by
  simp [saveConfig, loadConfig]

/-- C9 (amended): `stopTrading` while already not trading leaves the
run flag, the stats and the config unchanged — but it is not a
complete no-op: it appends the stop line to the logs on every call, so
it is idempotent on the flag and the stats only, not on the logs. -/
theorem C9_stop_while_idle (s : Store) (h : s.isTrading = false) :
    (stopTrading s).isTrading = false ∧
    (stopTrading s).stats = s.stats ∧
    (stopTrading s).config = s.config ∧
    (stopTrading s).logs = s.logs ++ [stopMsg] ∧
    (stopTrading (stopTrading s)).isTrading = (stopTrading s).isTrading ∧
    (stopTrading (stopTrading s)).stats = (stopTrading s).stats := by
  simp [stopTrading, pushLog]

/-- Witness for C9: the amended statement evaluated on the fresh
(idle) store. -/
theorem C9_stop_while_idle_witness :
    (stopTrading initialStore).isTrading = false ∧
    (stopTrading initialStore).stats = initialStore.stats ∧
    (stopTrading initialStore).config = initialStore.config ∧
    (stopTrading initialStore).logs = initialStore.logs ++ [stopMsg] ∧
    (stopTrading (stopTrading initialStore)).isTrading
      = (stopTrading initialStore).isTrading ∧
    (stopTrading (stopTrading initialStore)).stats
      = (stopTrading initialStore).stats :=
  C9_stop_while_idle initialStore rfl

/-- C9 counterexample: calling `stop()` on the idle fresh store is not
a no-op — the logs change (a stop line is appended). -/
theorem C9_counterexample :
    initialStore.isTrading = false ∧
    (stopTrading initialStore).logs ≠ initialStore.logs := by
  decide

/-- C7 (amended): the running-time view ignores the run flag entirely
— it reads only `stats.startTime` and the clock — and whenever
`startTime ≠ 0` it equals the `hh:mm:ss` rendering of
`now - startTime`, whether or not the system is trading.  (It is not
frozen while stopped; see the counterexample.) -/
theorem C7_runningTime_view (s : Store) (b : Bool) (now : Int) :
    runningTime { s with isTrading := b } now = runningTime s now ∧
    (s.stats.startTime ≠ 0 →
      runningTime s now = fmtElapsed (now - s.stats.startTime)) := by
  constructor
  · rfl
  · intro h
    unfold runningTime fmtElapsed
    rw [if_neg h]
    norm_num

/-- Witness for C7: the amended statement evaluated on a concrete
stopped store one hour after `startTime`. -/
theorem C7_runningTime_view_witness :
    runningTime { frozenStore with isTrading := true } 3600001
        = runningTime frozenStore 3600001 ∧
      (frozenStore.stats.startTime ≠ 0 →
        runningTime frozenStore 3600001
          = fmtElapsed (3600001 - frozenStore.stats.startTime)) :=
  C7_runningTime_view frozenStore true 3600001

/-- C7 counterexample: with the run flag down (not Running) and
`startTime = 1`, the view still advances with the clock — it is
`00:00:01` one second in and differs two hours later, so it does not
equal a frozen "last recorded elapsed time". -/
theorem C7_counterexample :
    frozenStore.isTrading = false ∧
    runningTime frozenStore 1001 = "00:00:01" ∧
    runningTime frozenStore 7200001 ≠ runningTime frozenStore 1001 := by
  decide

/-- Appending one record to a history adds its `buyAmount` to the sum. -/
theorem sumBuy_append (l : List TradeRecord) (r : TradeRecord) :
    sumBuy (l ++ [r]) = sumBuy l + r.buyAmount := by
  simp [sumBuy]

/-- C5: whenever the fetched balance is below `minUSDTRequired` (the
configured minimum), `runCycle` returns `false` and the resulting
stats equal the old stats with only `currentBalance` replaced by the
fetched balance — `tradeHistory`, `cyclesCompleted`, `totalVolume` and
every other stats field are untouched. -/
theorem C5_insufficient_balance (env : CycleEnv) (s : Store)
    (h : (getUSDTBalance env.md5 env.cookie env.balanceResp s).1
      < s.config.minUSDTRequired) :
    (runCycle env s).2 = false ∧
    (runCycle env s).1.stats
      = { s.stats with
          currentBalance := (getUSDTBalance env.md5 env.cookie env.balanceResp s).1 } := by
  unfold runCycle
  simp only [getUSDTBalance_stats, getUSDTBalance_config]
  rw [if_pos h]
  simp

/-- Witness for C5: a concrete environment reporting balance `0`
against the default minimum of `50`. -/
theorem C5_insufficient_balance_witness :
    (runCycle { okEnv with balanceResp := Except.ok (some 0) } initialStore).2 = false ∧
    (runCycle { okEnv with balanceResp := Except.ok (some 0) } initialStore).1.stats
      = { initialStore.stats with
          currentBalance :=
            (getUSDTBalance okEnv.md5 okEnv.cookie (Except.ok (some 0)) initialStore).1 } :=
  C5_insufficient_balance { okEnv with balanceResp := Except.ok (some 0) }
    initialStore (by decide)

/-- C4: on any failure of the underlying call — the `cr00` session
cookie missing (so `getHeaders` throws inside the `try`) or the
transport/parse step throwing — each of the four MarketClient
operations returns its no-result sentinel (`getQuote` returns null,
`buyToken`/`sellToken` return a result with `success = false`,
`getUSDTBalance` returns `0`) and appends exactly one log entry.  All
four operations are total functions of the store in this embedding:
no error crosses the boundary into `runCycle`. -/
theorem C4_market_boundary (m : String → String) (c : Option String)
    (s : Store) (e : String) :
    (∀ rq : Except String (Option Quote), c = none ∨ rq = Except.error e →
      (getQuote m c rq s).1 = none ∧
      ∃ msg, ((getQuote m c rq s).2).logs = s.logs ++ [msg]) ∧
    (∀ rt : Except String TxResult, c = none ∨ rt = Except.error e →
      ((buyToken m c rt s).1).success = false ∧
      ∃ msg, ((buyToken m c rt s).2).logs = s.logs ++ [msg]) ∧
    (∀ rt : Except String TxResult, c = none ∨ rt = Except.error e →
      ((sellToken m c rt s).1).success = false ∧
      ∃ msg, ((sellToken m c rt s).2).logs = s.logs ++ [msg]) ∧
    (∀ rb : Except String (Option ℚ), c = none ∨ rb = Except.error e →
      (getUSDTBalance m c rb s).1 = 0 ∧
      ∃ msg, ((getUSDTBalance m c rb s).2).logs = s.logs ++ [msg]) := by
  refine ⟨?_, ?_, ?_, ?_⟩ <;> rintro r hr <;> rcases hr with rfl | rfl
  · simp [getQuote, getHeaders, pushLog]
  · rcases c with _ | v <;> simp [getQuote, getHeaders, pushLog]
  · simp [buyToken, getHeaders, pushLog]
  · rcases c with _ | v <;> simp [buyToken, getHeaders, pushLog]
  · simp [sellToken, getHeaders, pushLog]
  · rcases c with _ | v <;> simp [sellToken, getHeaders, pushLog]
  · simp [getUSDTBalance, getHeaders, pushLog]
  · rcases c with _ | v <;> simp [getUSDTBalance, getHeaders, pushLog]

/-- Witness for C4: `getQuote` under a missing cookie, on the fresh
store, with a transport error standing by. -/
theorem C4_market_boundary_witness :
    (getQuote idHash none (Except.error "boom") initialStore).1 = none ∧
    ∃ msg, ((getQuote idHash none (Except.error "boom") initialStore).2).logs
      = initialStore.logs ++ [msg] :=
  (C4_market_boundary idHash none initialStore "boom").1
    (Except.error "boom") (Or.inl rfl)

/-- C1: the Stats invariant — `cyclesCompleted` equals the length of
`tradeHistory` and `totalVolume` equals the sum of `buyAmount` over
`tradeHistory` — holds of the fresh store and is preserved by every
completed `runCycle` (whatever it returns) and by every step of the
drive loop, hence by every reachable state of the trading store. -/
theorem C1_stats_invariant :
    statsInvariant initialStore ∧
    (∀ env s, statsInvariant s → statsInvariant (runCycle env s).1) ∧
    (∀ env ls, statsInvariant ls.store → statsInvariant ((loopStep env ls).1).store) := by
  have hrun : ∀ env s, statsInvariant s → statsInvariant (runCycle env s).1 := by
    intro env s hs
    rcases hs with ⟨h1, h2⟩
    unfold statsInvariant
    simp only [runCycle]
    split
    · constructor <;> simp [h1, h2]
    · split
      · constructor <;> simp [h1, h2]
      · split
        · constructor <;> simp [h1, h2]
        · split
          · constructor <;> simp [h1, h2]
          · split
            · constructor <;> simp [h1, h2]
            · constructor <;> simp [h1, h2, sumBuy_append]
  refine ⟨by decide, hrun, ?_⟩
  intro env ls hs
  cases hph : ls.phase <;> simp only [loopStep, hph]
  · split
    · exact hrun env ls.store hs
    · exact hs
  · split <;> exact hs
  · exact hs
  · exact hs
  · exact hs

/-- Witness for C1: the invariant after one fully successful cycle on
the fresh store. -/
theorem C1_stats_invariant_witness :
    statsInvariant (runCycle okEnv initialStore).1 :=
  C1_stats_invariant.2.1 okEnv initialStore C1_stats_invariant.1

/-- C2 (amended): if `stop()` has been called (the flag is down) while
the loop sits in a delay, the loop never starts another cycle — but it
does not observe the flag upon waking from the backoff delay: from the
backoff suspension it first completes the full inter-cycle delay and
only then re-checks the flag at the loop top, reaching Stopped after
at most the interrupted delay plus one further inter-cycle delay (two
delay intervals), with no `runCycle` in between; from the inter-cycle
suspension it stops right after waking. -/
theorem C2_stop_during_delay (env : CycleEnv) (s : Store)
    (h : s.isTrading = false) :
    (loopStepN env 3 ⟨Phase.inBackoff, s⟩).phase = Phase.done ∧
    loopTrace env 3 ⟨Phase.inBackoff, s⟩
      = [LoopEvent.wokeBackoff, LoopEvent.wokeInter, LoopEvent.exited] ∧
    (loopStepN env 2 ⟨Phase.inInter, s⟩).phase = Phase.done ∧
    loopTrace env 2 ⟨Phase.inInter, s⟩
      = [LoopEvent.wokeInter, LoopEvent.exited] := by
  simp [loopStepN, loopTrace, loopStep, h]

/-- Witness for C2: the amended statement on the concrete store of a
run under `cfg6` on which `stop()` was just called. -/
theorem C2_stop_during_delay_witness :
    (loopStepN okEnv 3 ⟨Phase.inBackoff, stopTrading store6⟩).phase = Phase.done ∧
    loopTrace okEnv 3 ⟨Phase.inBackoff, stopTrading store6⟩
      = [LoopEvent.wokeBackoff, LoopEvent.wokeInter, LoopEvent.exited] ∧
    (loopStepN okEnv 2 ⟨Phase.inInter, stopTrading store6⟩).phase = Phase.done ∧
    loopTrace okEnv 2 ⟨Phase.inInter, stopTrading store6⟩
      = [LoopEvent.wokeInter, LoopEvent.exited] :=
  C2_stop_during_delay okEnv (stopTrading store6) rfl

/-- C2 counterexample: `stop()` called during the backoff suspension
(flag already down).  Upon waking from that suspension the loop does
NOT observe the flag and does not stop: it moves into the full
inter-cycle delay (`inInter`), is still not Stopped after that wake
either, and reaches Stopped only at the third step — i.e. one whole
delay interval after the one in which `stop()` arrived, contradicting
"observes the stop flag immediately upon waking" and "reaches Stopped
within one delay interval". -/
theorem C2_counterexample :
    (stopTrading store6).isTrading = false ∧
    (loopStep okEnv ⟨Phase.inBackoff, stopTrading store6⟩).1.phase = Phase.inInter ∧
    (loopStep okEnv ⟨Phase.inBackoff, stopTrading store6⟩).1.phase ≠ Phase.done ∧
    (loopStepN okEnv 2 ⟨Phase.inBackoff, stopTrading store6⟩).phase ≠ Phase.done ∧
    (loopStepN okEnv 3 ⟨Phase.inBackoff, stopTrading store6⟩).phase = Phase.done := by
  decide

/-- Iterating the loop machine splits over addition. -/
theorem loopStepN_add (env : CycleEnv) (a b : Nat) (ls : LoopState) :
    loopStepN env (a + b) ls = loopStepN env b (loopStepN env a ls) := by
  induction a generalizing ls with
  | zero => simp [loopStepN]
  | succ n ih =>
    have hn : n + 1 + b = (n + b) + 1 := by omega
    rw [hn]
    simp only [loopStepN]
    exact ih _

/-- `done` is absorbing for the loop machine. -/
theorem loopStepN_done (env : CycleEnv) (n : Nat) (ls : LoopState)
    (h : ls.phase = Phase.done) :
    (loopStepN env n ls).phase = Phase.done := by
  induction n generalizing ls with
  | zero => simpa [loopStepN] using h
  | succ k ih =>
    simp only [loopStepN]
    exact ih _ (by simp [loopStep, h])


/-! ### Evaluation lemmas for the all-success environment `okEnv` -/

@[simp] theorem okEnv_rand : okEnv.rand = 0 := rfl

@[simp] theorem getUSDTBalance_okEnv (s : Store) :
    getUSDTBalance okEnv.md5 okEnv.cookie okEnv.balanceResp s = (1000, s) := rfl

@[simp] theorem getQuote_buy_okEnv (s : Store) :
    getQuote okEnv.md5 okEnv.cookie okEnv.buyQuoteResp s
      = (some ⟨37 / 10, "extraBuy"⟩, s) := rfl

@[simp] theorem buyToken_okEnv (s : Store) :
    buyToken okEnv.md5 okEnv.cookie okEnv.buyResp s = (⟨true, "ok"⟩, s) := rfl

@[simp] theorem getQuote_sell_okEnv (s : Store) :
    getQuote okEnv.md5 okEnv.cookie okEnv.sellQuoteResp s
      = (some ⟨15, "extraSell"⟩, s) := rfl

@[simp] theorem sellToken_okEnv (s : Store) :
    sellToken okEnv.md5 okEnv.cookie okEnv.sellResp s = (⟨true, "ok"⟩, s) := rfl

/-- Under `okEnv`, as long as the configured minimum balance does not
exceed the reported balance of 1000, a cycle succeeds and adds
`minAmount` to the volume (`rand = 0`) and one to the cycle count. -/
theorem runCycle_okEnv (s : Store)
    (hbal : ¬((1000 : ℚ) < s.config.minUSDTRequired)) :
    (runCycle okEnv s).2 = true ∧
    (runCycle okEnv s).1.config = s.config ∧
    (runCycle okEnv s).1.isTrading = s.isTrading ∧
    (runCycle okEnv s).1.stats.totalVolume
      = s.stats.totalVolume + s.config.minAmount ∧
    (runCycle okEnv s).1.stats.cyclesCompleted
      = s.stats.cyclesCompleted + 1 := by
  unfold runCycle
  simp only [getUSDTBalance_okEnv, getQuote_buy_okEnv, buyToken_okEnv,
    getQuote_sell_okEnv, sellToken_okEnv, okEnv_rand]
  rw [if_neg hbal]
  simp [pushLog]

/-- Under `okEnv`, one full loop iteration (cycle, then the inter-cycle
delay) returns the machine to the loop top having added `minAmount` to
the volume and one to the cycle count. -/
theorem loop_iter_okEnv (s : Store)
    (htr : s.isTrading = true)
    (hvol : s.stats.totalVolume < s.config.targetVolume)
    (hbal : ¬((1000 : ℚ) < s.config.minUSDTRequired)) :
    loopStepN okEnv 3 ⟨Phase.top, s⟩
      = ⟨Phase.top, (runCycle okEnv s).1⟩ := by
  obtain ⟨hok, -, -, -, -⟩ := runCycle_okEnv s hbal
  simp only [loopStepN, loopStep]
  rw [if_pos ⟨htr, hvol⟩, hok]
  rfl

/-- Under `okEnv` and `cfg6`, after `3 * k` machine steps (`k ≤ 7`) the
loop is back at its condition check with `k` completed cycles and
volume `15 * k`. -/
theorem loop6_invariant : ∀ k : Nat, k ≤ 7 →
    ∃ st : Store, loopStepN okEnv (3 * k) ls6 = ⟨Phase.top, st⟩ ∧
      st.config = cfg6 ∧ st.isTrading = true ∧
      st.stats.totalVolume = 15 * (k : ℚ) ∧
      st.stats.cyclesCompleted = k := by
  intro k
  induction k with
  | zero =>
    intro _
    refine ⟨store6, rfl, rfl, rfl, ?_, rfl⟩
    norm_num [store6, startTradingEnter, initialStore, initialStats, pushLog]
  | succ n ih =>
    intro hk
    obtain ⟨st, hst, hcfg, htr, hvol, hcyc⟩ := ih (by omega)
    have hbal : ¬((1000 : ℚ) < st.config.minUSDTRequired) := by
      rw [hcfg]
      norm_num [cfg6, defaultConfig]
    have hv : st.stats.totalVolume < st.config.targetVolume := by
      rw [hvol, hcfg]
      have hn : (n : ℚ) ≤ 6 := by
        exact_mod_cast Nat.le_of_lt_succ (by omega)
      have : (15 : ℚ) * (n : ℚ) ≤ 90 := by nlinarith
      norm_num [cfg6, defaultConfig]
      linarith
    obtain ⟨-, hcfg', htr', hvol', hcyc'⟩ := runCycle_okEnv st hbal
    have h3 : 3 * (n + 1) = 3 * n + 3 := by ring
    rw [h3, loopStepN_add, hst, loop_iter_okEnv st htr hv hbal]
    refine ⟨(runCycle okEnv st).1, rfl, ?_, ?_, ?_, ?_⟩
    · rw [hcfg', hcfg]
    · rw [htr', htr]
    · rw [hvol', hvol, hcfg]
      push_cast
      norm_num [cfg6, defaultConfig]
      ring
    · rw [hcyc', hcyc]

/-- C6: under `minAmount = maxAmount = 15`, `targetVolume = 100`, with
every cycle succeeding with `buyAmount = 15` (`okEnv`), the drive loop
is not Stopped at any of its first 21 machine steps (seven iterations
of cycle / enter delay / wake), holds `cyclesCompleted = 7` and
`totalVolume = 105` at step 21, and transitions to Stopped — the flag
cleared by `stopTrading()` — exactly at the next condition check
(step 22), still with `cyclesCompleted = 7` and `totalVolume = 105`. -/
theorem C6_reaches_target_after_seven_cycles :
    (∀ k, k ≤ 21 → (loopStepN okEnv k ls6).phase ≠ Phase.done) ∧
    (loopStepN okEnv 21 ls6).store.stats.cyclesCompleted = 7 ∧
    (loopStepN okEnv 21 ls6).store.stats.totalVolume = 105 ∧
    (loopStepN okEnv 22 ls6).phase = Phase.done ∧
    (loopStepN okEnv 22 ls6).store.isTrading = false ∧
    (loopStepN okEnv 22 ls6).store.stats.cyclesCompleted = 7 ∧
    (loopStepN okEnv 22 ls6).store.stats.totalVolume = 105 := by
  obtain ⟨st, hst, hcfg, htr, hvol, hcyc⟩ := loop6_invariant 7 le_rfl
  rw [show 3 * 7 = 21 from rfl] at hst
  have h21 : (loopStepN okEnv 21 ls6).phase = Phase.top := by rw [hst]
  have hvol105 : st.stats.totalVolume = 105 := by rw [hvol]; norm_num
  have hcond : ¬(st.isTrading = true ∧
      st.stats.totalVolume < st.config.targetVolume) := by
    rintro ⟨-, hlt⟩
    rw [hvol105, hcfg] at hlt
    norm_num [cfg6, defaultConfig] at hlt
  have h22 : loopStepN okEnv 22 ls6 = ⟨Phase.done, stopTrading st⟩ := by
    rw [show (22 : Nat) = 21 + 1 from rfl, loopStepN_add, hst]
    simp only [loopStepN, loopStep]
    rw [if_neg hcond]
  refine ⟨?_, by rw [hst]; exact hcyc, by rw [hst]; exact hvol105,
    by rw [h22], by rw [h22]; rfl,
    by rw [h22]; exact hcyc, by rw [h22]; exact hvol105⟩
  intro k hk hdone
  have habs : (loopStepN okEnv 21 ls6).phase = Phase.done := by
    rw [show (21 : Nat) = k + (21 - k) from by omega, loopStepN_add]
    exact loopStepN_done okEnv _ _ hdone
  rw [h21] at habs
  exact Phase.noConfusion habs

/-- Witness for C6: the loop is not yet Stopped at its very first
condition check. -/
theorem C6_reaches_target_witness :
    (loopStepN okEnv 0 ls6).phase ≠ Phase.done :=
  C6_reaches_target_after_seven_cycles.1 0 (by omega)

/-! ### `maxLossRate` is inert: commutation of every operation with `setMLR` -/

@[simp] theorem setMLR_stats (s : Store) (r : ℚ) :
    (setMLR s r).stats = s.stats := rfl

@[simp] theorem setMLR_logs (s : Store) (r : ℚ) :
    (setMLR s r).logs = s.logs := rfl

@[simp] theorem setMLR_isTrading (s : Store) (r : ℚ) :
    (setMLR s r).isTrading = s.isTrading := rfl

@[simp] theorem setMLR_isConnected (s : Store) (r : ℚ) :
    (setMLR s r).isConnected = s.isConnected := rfl

@[simp] theorem setMLR_fromToken (s : Store) (r : ℚ) :
    (setMLR s r).config.fromToken = s.config.fromToken := rfl

@[simp] theorem setMLR_minAmount (s : Store) (r : ℚ) :
    (setMLR s r).config.minAmount = s.config.minAmount := rfl

@[simp] theorem setMLR_maxAmount (s : Store) (r : ℚ) :
    (setMLR s r).config.maxAmount = s.config.maxAmount := rfl

@[simp] theorem setMLR_targetVolume (s : Store) (r : ℚ) :
    (setMLR s r).config.targetVolume = s.config.targetVolume := rfl

@[simp] theorem setMLR_minUSDTRequired (s : Store) (r : ℚ) :
    (setMLR s r).config.minUSDTRequired = s.config.minUSDTRequired := rfl

@[simp] theorem pushLog_setMLR (s : Store) (r : ℚ) (m : String) :
    pushLog (setMLR s r) m = setMLR (pushLog s m) r := rfl

@[simp] theorem getQuote_setMLR (m : String → String) (c : Option String)
    (q : Except String (Option Quote)) (s : Store) (r : ℚ) :
    getQuote m c q (setMLR s r)
      = ((getQuote m c q s).1, setMLR (getQuote m c q s).2 r) := by
  cases c <;> rcases q with e | x <;> simp [getQuote, getHeaders, pushLog, setMLR]

@[simp] theorem buyToken_setMLR (m : String → String) (c : Option String)
    (q : Except String TxResult) (s : Store) (r : ℚ) :
    buyToken m c q (setMLR s r)
      = ((buyToken m c q s).1, setMLR (buyToken m c q s).2 r) := by
  cases c <;> rcases q with e | x <;> simp [buyToken, getHeaders, pushLog, setMLR]

@[simp] theorem sellToken_setMLR (m : String → String) (c : Option String)
    (q : Except String TxResult) (s : Store) (r : ℚ) :
    sellToken m c q (setMLR s r)
      = ((sellToken m c q s).1, setMLR (sellToken m c q s).2 r) := by
  cases c <;> rcases q with e | x <;> simp [sellToken, getHeaders, pushLog, setMLR]

@[simp] theorem getUSDTBalance_setMLR (m : String → String) (c : Option String)
    (q : Except String (Option ℚ)) (s : Store) (r : ℚ) :
    getUSDTBalance m c q (setMLR s r)
      = ((getUSDTBalance m c q s).1, setMLR (getUSDTBalance m c q s).2 r) := by
  cases c <;> rcases q with e | (_ | x) <;>
    simp [getUSDTBalance, getHeaders, pushLog, setMLR]


theorem getQuote_eq (m : String → String) (c : Option String)
    (q : Except String (Option Quote)) (s : Store) :
    getQuote m c q s
      = (quoteVal m c q, { s with logs := s.logs ++ quoteLogTail m c q }) := by
  cases c <;> rcases q with e | x <;>
    simp [getQuote, quoteVal, quoteLogTail, getHeaders, pushLog]

theorem buyToken_eq (m : String → String) (c : Option String)
    (q : Except String TxResult) (s : Store) :
    buyToken m c q s
      = (buyVal m c q, { s with logs := s.logs ++ buyLogTail m c q }) := by
  cases c <;> rcases q with e | x <;>
    simp [buyToken, buyVal, buyLogTail, getHeaders, pushLog]

theorem sellToken_eq (m : String → String) (c : Option String)
    (q : Except String TxResult) (s : Store) :
    sellToken m c q s
      = (sellVal m c q, { s with logs := s.logs ++ sellLogTail m c q }) := by
  cases c <;> rcases q with e | x <;>
    simp [sellToken, sellVal, sellLogTail, getHeaders, pushLog]

theorem getUSDTBalance_eq (m : String → String) (c : Option String)
    (q : Except String (Option ℚ)) (s : Store) :
    getUSDTBalance m c q s
      = (balVal m c q, { s with logs := s.logs ++ balLogTail m c q }) := by
  cases c <;> rcases q with e | (_ | x) <;>
    simp [getUSDTBalance, balVal, balLogTail, getHeaders, pushLog]

/-- `runCycle` neither reads nor writes `maxLossRate`: it commutes
with replacing that field. -/
theorem runCycle_setMLR (env : CycleEnv) (s : Store) (r : ℚ) :
    runCycle env (setMLR s r)
      = (setMLR (runCycle env s).1 r, (runCycle env s).2) := by
  unfold runCycle
  simp only [getQuote_eq, buyToken_eq, sellToken_eq, getUSDTBalance_eq,
    setMLR_stats, setMLR_logs, setMLR_isTrading, setMLR_isConnected,
    setMLR_fromToken, setMLR_minAmount, setMLR_maxAmount,
    setMLR_minUSDTRequired]
  repeat' split
  all_goals simp_all [setMLR, pushLog]

/-- `stopTrading` commutes with replacing `maxLossRate`. -/
theorem stopTrading_setMLR (s : Store) (r : ℚ) :
    stopTrading (setMLR s r) = setMLR (stopTrading s) r := rfl

/-- `startTrading`'s entry commutes with replacing `maxLossRate`. -/
theorem startTradingEnter_setMLR (now : Int) (s : Store) (r : ℚ) :
    startTradingEnter now (setMLR s r) = setMLR (startTradingEnter now s) r := by
  by_cases h : s.isTrading <;>
    simp [startTradingEnter, h, setMLR, pushLog]

/-- One drive-loop step commutes with replacing `maxLossRate`:
phase and event are unchanged, the store carries the replaced field
through untouched. -/
theorem loopStep_setMLR (env : CycleEnv) (ph : Phase) (s : Store) (r : ℚ) :
    loopStep env ⟨ph, setMLR s r⟩
      = (⟨(loopStep env ⟨ph, s⟩).1.phase, setMLR (loopStep env ⟨ph, s⟩).1.store r⟩,
         (loopStep env ⟨ph, s⟩).2) := by
  cases ph <;>
    simp only [loopStep, setMLR_isTrading, setMLR_stats, setMLR_targetVolume,
      runCycle_setMLR, stopTrading_setMLR] <;>
    first
      | rfl
      | split <;> rfl

/-- C10: no code path of the trading core reads or enforces
`maxLossRate`.  For two stores differing only in that field (`setMLR`),
`runCycle` returns the same flag and the same resulting state except
for carrying the differing field through unchanged; `stopTrading`,
`startTrading`'s entry and every drive-loop step likewise commute with
replacing the field, so two runs receiving identical external
responses behave identically up to the inert field itself. -/
theorem C10_maxLossRate_inert (env : CycleEnv) (s : Store) (r : ℚ)
    (ph : Phase) (now : Int) :
    runCycle env (setMLR s r)
      = (setMLR (runCycle env s).1 r, (runCycle env s).2) ∧
    stopTrading (setMLR s r) = setMLR (stopTrading s) r ∧
    startTradingEnter now (setMLR s r) = setMLR (startTradingEnter now s) r ∧
    loopStep env ⟨ph, setMLR s r⟩
      = (⟨(loopStep env ⟨ph, s⟩).1.phase, setMLR (loopStep env ⟨ph, s⟩).1.store r⟩,
         (loopStep env ⟨ph, s⟩).2) :=
  ⟨runCycle_setMLR env s r, stopTrading_setMLR s r,
    startTradingEnter_setMLR now s r, loopStep_setMLR env ph s r⟩
